import Mathlib

/-!
Shallow embedding of the multi-view map state engine of `src/main.ts`
(obsidian-leaflet): overlay parsing and ordering, the markdown
postprocessor's id validation, the external binding watcher's overlay
replacement, the cross-view marker broadcast handlers, the coordinate
fallback logic, and the persistence merge & garbage-collection pass of
`saveSettings`.  JavaScript numbers are modelled as rationals, JS string
falsiness and `undefined` as `Option`, and timestamps as integers
(milliseconds).
-/

namespace OLeaflet

/-- JS truthiness of a possibly-undefined string value (`!id` in the
source): `undefined`/`null`/`""` are falsy, every other string truthy. -/
def idTruthy : Option String → Bool
  | none => false
  | some s => !s.isEmpty

/-! ### Persistence: durable Logical Map Records (`saveSettings`, main.ts 642-705) -/

/-- Persisted marker shape built at main.ts 656-665: `{type, id, loc, link,
layer, command: marker.command || false, zoom: marker.zoom ?? 0}`. -/
structure IMarkerData where
  mtype : String
  id : String
  loc : ℚ × ℚ
  link : Option String
  layer : String
  command : Bool
  zoom : ℚ
deriving DecidableEq

/-- Persisted overlay shape built at main.ts 670-681 for `Circle` overlays. -/
structure IOverlayData where
  radius : ℚ
  loc : ℚ × ℚ
  color : String
  layer : String
  unitName : String
  desc : Option String
deriving DecidableEq

/-- A durable Logical Map Record (an element of `AppData.mapMarkers`).
`id` and `lastAccessed` may be absent on records migrated from old data,
hence `Option`; a non-`Circle` overlay is persisted as `undefined` by the
`map` callback at main.ts 669-683, hence `Option IOverlayData`. -/
structure MapMarkerRecord where
  id : Option String
  files : List String
  lastAccessed : Option Int
  markers : List IMarkerData
  overlays : List (Option IOverlayData)
deriving DecidableEq

/-- Filter at main.ts 688-690: keep only records with marker or overlay data
(`markers.length > 0 || overlays.length > 0`). -/
def keepWithData (r : MapMarkerRecord) : Bool :=
  !r.markers.isEmpty || !r.overlays.isEmpty

/-- GC filter at main.ts 693-696: keep a record iff its id is falsy, or it
has attached files, or it was accessed within the last week
(`Date.now() - lastAccessed <= 6.048e8`; a missing `lastAccessed` defaults
to `Date.now()`). -/
def gcKeep (now : Int) (r : MapMarkerRecord) : Bool :=
  !idTruthy r.id || !r.files.isEmpty ||
    decide (now - (r.lastAccessed.getD now) ≤ 604800000)

/-- The two record-pruning filters of `saveSettings` (main.ts 687-696),
applied to the merged store in source order. -/
def pruneRecords (now : Int) (records : List MapMarkerRecord) :
    List MapMarkerRecord :=
  (records.filter keepWithData).filter (gcKeep now)

/-- A live marker on an active map, restricted to the fields `saveSettings`
reads (main.ts 654-665). `command` and `zoom` may be unset on the live
object. -/
structure MarkerEntry where
  mutable : Bool
  mtype : String
  id : String
  loc : ℚ × ℚ
  link : Option String
  layer : String
  command : Option Bool
  zoom : Option ℚ
deriving DecidableEq

/-- Persisted image of a live marker (main.ts 656-665). -/
def persistMarker (m : MarkerEntry) : IMarkerData :=
  { mtype := m.mtype, id := m.id, loc := m.loc, link := m.link,
    layer := m.layer, command := m.command.getD false, zoom := m.zoom.getD 0 }

/-- A live overlay on an active map, restricted to the fields `saveSettings`
reads (main.ts 667-683).  `isCircle` records whether the rendered leaflet
instance is a `Circle`. -/
structure OverlayEntry where
  mutable : Bool
  isCircle : Bool
  dataRadius : ℚ
  latlng : ℚ × ℚ
  color : String
  layer : String
  unitName : String
  desc : Option String
deriving DecidableEq

/-- Persisted image of a live overlay (main.ts 669-683): the `map` callback
returns a record only when the leaflet instance is a `Circle`, otherwise
`undefined`. -/
def persistOverlay (o : OverlayEntry) : Option IOverlayData :=
  if o.isCircle then
    some { radius := o.dataRadius, loc := o.latlng, color := o.color,
           layer := o.layer, unitName := o.unitName, desc := o.desc }
  else none

/-- One active map (an `IMapInterface` element of `this.maps`), restricted
to the fields `saveSettings` reads. -/
structure MapEntry where
  id : String
  markers : List MarkerEntry
  overlays : List OverlayEntry
deriving DecidableEq

/-- One element of `this.mapFiles`: a document path and the map ids it
embeds. -/
structure MapFileEntry where
  file : String
  maps : List String
deriving DecidableEq

/-- The fresh record pushed for an active map at main.ts 648-684. -/
def buildRecord (now : Int) (mapFiles : List MapFileEntry) (m : MapEntry) :
    MapMarkerRecord :=
  { id := some m.id,
    files := (mapFiles.filter (fun mf => mf.maps.contains m.id)).map
      MapFileEntry.file,
    lastAccessed := some now,
    markers := (m.markers.filter MarkerEntry.mutable).map persistMarker,
    overlays := (m.overlays.filter OverlayEntry.mutable).map persistOverlay }

/-- One iteration of the forEach at main.ts 643-685: remove every durable
record with the active map's id, then append the freshly built record. -/
def mergeStep (now : Int) (mapFiles : List MapFileEntry)
    (records : List MapMarkerRecord) (m : MapEntry) : List MapMarkerRecord :=
  (records.filter (fun r => !(r.id == some m.id))) ++ [buildRecord now mapFiles m]

/-- The whole record-reconciliation pass of `saveSettings` (main.ts 642-696):
fold the remove-then-append step over all active maps, then apply the
data and GC pruning filters. -/
def saveSettingsRecords (now : Int) (mapFiles : List MapFileEntry)
    (maps : List MapEntry) (records : List MapMarkerRecord) :
    List MapMarkerRecord :=
  pruneRecords now (maps.foldl (mergeStep now mapFiles) records)

/-! ### JS number parsing -/

/-- Whitespace characters stripped by the JS `Number` coercion before
parsing (the ASCII ones). -/
def isJsSpace (c : Char) : Bool :=
  c == ' ' || c == '\t' || c == '\n' || c == '\r'

/-- Strip leading and trailing whitespace from a character list. -/
def trimChars (cs : List Char) : List Char :=
  ((cs.dropWhile isJsSpace).reverse.dropWhile isJsSpace).reverse

/-- Numeric value of a list of decimal digit characters. -/
def digitsToNat (cs : List Char) : Nat :=
  cs.foldl (fun n c => n * 10 + (c.toNat - 48)) 0

/-- Parse an unsigned decimal literal (`123`, `12.5`, `.5`, `12.`) from the
front of a character list, returning its value and the unconsumed rest. -/
def parseUnsignedDec (cs : List Char) : Option (ℚ × List Char) :=
  let ip := cs.takeWhile Char.isDigit
  let rest := cs.dropWhile Char.isDigit
  match rest with
  | '.' :: rest2 =>
    let fp := rest2.takeWhile Char.isDigit
    let rest3 := rest2.dropWhile Char.isDigit
    if ip.isEmpty && fp.isEmpty then none
    else some ((digitsToNat ip : ℚ) +
      (digitsToNat fp : ℚ) / ((10 : ℚ) ^ fp.length), rest3)
  | _ => if ip.isEmpty then none else some ((digitsToNat ip : ℚ), rest)

/-- The JS `Number(string)` coercion used throughout main.ts, modelled on
finite decimal literals: leading/trailing whitespace is trimmed, the empty
string is `0`, an optional sign, integer/fraction digits and an optional
decimal exponent are accepted, and everything else is `NaN` (`none`).
Non-decimal forms of the grammar (hex/octal/binary literals, `Infinity`)
are outside the modelled fragment. -/
def jsNumber (s : String) : Option ℚ := do
  let t := trimChars s.data
  if t.isEmpty then return 0
  let (sign, cs1) : ℚ × List Char :=
    match t with
    | '+' :: r => (1, r)
    | '-' :: r => (-1, r)
    | cs => (1, cs)
  let (v, rest) ← parseUnsignedDec cs1
  match rest with
  | [] => return sign * v
  | e :: r2 =>
    if e = 'e' ∨ e = 'E' then
      let (esign, r3) : Int × List Char :=
        match r2 with
        | '+' :: r => (1, r)
        | '-' :: r => (-1, r)
        | r => (1, r)
      let eds := r3.takeWhile Char.isDigit
      let r4 := r3.dropWhile Char.isDigit
      if eds.isEmpty ∨ !r4.isEmpty then none
      else return sign * v * (10 : ℚ) ^ (esign * (digitsToNat eds : Int))
    else none

/-! ### Unit conversion and the overlay geometry engine -/

/-- Linear length units supported by the `convert` npm library as used by
main.ts (a representative set of its common linear units). -/
inductive LengthUnit where
  | m | km | cm | mm | mi | ft | yd | inch
deriving DecidableEq

/-- Exact meters-per-unit factor of each supported unit. -/
def unitFactor : LengthUnit → ℚ
  | .m => 1
  | .km => 1000
  | .cm => 1 / 100
  | .mm => 1 / 1000
  | .mi => 1609344 / 1000
  | .ft => 3048 / 10000
  | .yd => 9144 / 10000
  | .inch => 254 / 10000

/-- Recognize a unit token as the `convert` library does for the common
linear units; an unrecognized token makes `convert(...).from(unit)` throw,
modelled as `none`. -/
def parseUnit : String → Option LengthUnit
  | "m" => some .m
  | "km" => some .km
  | "cm" => some .cm
  | "mm" => some .mm
  | "mi" => some .mi
  | "ft" => some .ft
  | "yd" => some .yd
  | "in" => some .inch
  | _ => none

/-- Convert a magnitude in the given unit token to meters
(`convert(r).from(unit).to("m")`); `none` when the unit is unrecognized. -/
def convertToMeters (r : ℚ) (unitName : String) : Option ℚ :=
  (parseUnit unitName).map (fun u => r * unitFactor u)

/-- Modelled from the spec: `OVERLAY_TAG_REGEX` (defined in `src/utils`,
which is not under src/) is the fixed radius-spec pattern capturing a
numeric magnitude and an optional unit token.  The match fails when no
leading numeric part exists; the unit capture is absent when no letters
follow. -/
def matchOverlayTag (s : String) : Option (String × Option String) :=
  let cs := s.data
  let num := cs.takeWhile (fun c => c.isDigit || c == '.')
  let rest := cs.dropWhile (fun c => c.isDigit || c == '.')
  if num.isEmpty then none
  else
    let u := (rest.dropWhile (fun c => c == ' ')).takeWhile Char.isAlpha
    some (String.mk num, if u.isEmpty then none else some (String.mk u))

/-- A raw overlay tuple `[color, loc, length, desc, id?]` as collected at
main.ts 241-248 from the block's `overlay` parameter and the immutable
overlay sources. -/
structure RawOverlay where
  color : String
  loc : ℚ × ℚ
  lengthSpec : String
  desc : String
  id : Option String
deriving DecidableEq

/-- A parsed overlay tuple `[color, loc, radius, unit, desc, id]` as built
by the `map` callback at main.ts 248-258. -/
structure ParsedOverlay where
  color : String
  loc : ℚ × ℚ
  radius : ℚ
  unitName : String
  desc : String
  id : String
deriving DecidableEq

/-- The error message thrown at main.ts 252-254 for a malformed radius
spec. -/
def overlayFormatErrorMsg : String :=
  "Could not parse overlay radius. Please make sure it is in the format `<length> <unit>`."

/-- The `map` callback at main.ts 248-258: match the radius spec against
`OVERLAY_TAG_REGEX` and throw when there is no match or the captured
magnitude is `NaN`; otherwise build the parsed tuple (unit defaults to
`"m"`, a missing id is generated). -/
def parseOverlayStrict (genId : String) (r : RawOverlay) :
    Except String ParsedOverlay :=
  match matchOverlayTag r.lengthSpec with
  | none => .error overlayFormatErrorMsg
  | some (num, unitTok) =>
    match jsNumber num with
    | none => .error overlayFormatErrorMsg
    | some q =>
      .ok { color := r.color, loc := r.loc, radius := q,
            unitName := unitTok.getD "m", desc := r.desc,
            id := r.id.getD genId }

instance {ε α : Type} [DecidableEq ε] [DecidableEq α] :
    DecidableEq (Except ε α) := fun a b =>
  match a, b with
  | .error e, .error f =>
    if h : e = f then .isTrue (by rw [h]) else .isFalse (by simp [h])
  | .ok x, .ok y =>
    if h : x = y then .isTrue (by rw [h]) else .isFalse (by simp [h])
  | .error _, .ok _ => .isFalse (by simp)
  | .ok _, .error _ => .isFalse (by simp)

/-- The overlay-array construction at main.ts 241-259: a JS `.map` whose
callback throws, so the first malformed tuple aborts the whole array with
that error.  `getId()` is modelled by the tuple's position. -/
def processOverlays (overlays : List RawOverlay) :
    Except String (List ParsedOverlay) :=
  (overlays.enum).mapM
    (fun p => parseOverlayStrict (toString p.1) p.2)

/-- Sort key of the comparator at main.ts 260-268: the radius converted to
meters (on a recognized unit; an unrecognized unit would make the
comparator throw and is outside the sorted fragment). -/
def overlayKey (o : ParsedOverlay) : ℚ :=
  (convertToMeters o.radius o.unitName).getD 0

/-- The radius-descending comparison of the sort comparator at
main.ts 260-268 (`radiusB - radiusA < 0` iff `a` precedes `b`). -/
def overlayGE (a b : ParsedOverlay) : Prop := overlayKey b ≤ overlayKey a

instance : DecidableRel overlayGE := fun a b =>
  inferInstanceAs (Decidable (overlayKey b ≤ overlayKey a))

/-- The stable sort `overlayArray.sort(comparator)` at main.ts 260-268,
ordering overlays by converted radius descending before insertion. -/
def sortOverlays (l : List ParsedOverlay) : List ParsedOverlay :=
  l.insertionSort overlayGE

/-! ### The postprocessor's fatal-error skeleton -/

/-- The block parameters the modelled fragment of `postprocessor` reads:
the (possibly absent) `id` and the raw overlay list. -/
structure PostParams where
  id : Option String
  overlay : List RawOverlay
deriving DecidableEq

/-- Outcome of one markdown-block render: either a map carrying its
sorted overlay array, or the rendered error region produced by
`renderError(el, e.message)` at main.ts 532. -/
inductive RenderOutcome where
  | map (overlays : List ParsedOverlay)
  | errorRegion (msg : String)
deriving DecidableEq

/-- Result of the postprocessor: the transient notices shown to the user
and the rendered outcome. -/
structure PostResult where
  notices : List String
  outcome : RenderOutcome
deriving DecidableEq

/-- Notice texts of main.ts 150-155 and 531. -/
def idNotice1 : String :=
  "As of version 3.0.0, Obsidian Leaflet maps must have an ID."

/-- Second notice shown for a missing id (main.ts 153-155). -/
def idNotice2 : String :=
  "All marker data associated with this map will sync to the new ID."

/-- The generic failure notice of the top-level catch (main.ts 531). -/
def loadErrorNotice : String := "There was an error loading the map."

/-- The id-validation and overlay-construction control flow of
`postprocessor` (main.ts 119-533), projected onto the modelled parameters:
a falsy `id` throws `"ID required"` after two notices (main.ts 149-157);
a malformed overlay radius throws out of the array construction
(main.ts 241-259); any throw reaches the catch at main.ts 529-533, which
adds a notice and replaces the map's region with the error message;
otherwise the sorted overlays are rendered. -/
def postprocessor (p : PostParams) : PostResult :=
  if !idTruthy p.id then
    { notices := [idNotice1, idNotice2, loadErrorNotice],
      outcome := .errorRegion "ID required" }
  else
    match processOverlays p.overlay with
    | .error e =>
      { notices := [loadErrorNotice], outcome := .errorRegion e }
    | .ok l =>
      { notices := [], outcome := .map (sortOverlays l) }

/-- Number of overlays actually rendered by an outcome. -/
def renderedOverlayCount : RenderOutcome → Nat
  | .map l => l.length
  | .errorRegion _ => 0

/-! ### External binding watcher: overlay replacement (main.ts 344-393) -/

/-- A frontmatter `mapoverlay` entry `[color?, loc?, length?, desc?]`;
absent positions take the JS destructuring defaults of main.ts 354-365. -/
structure FrontmatterOverlay where
  color : Option String
  loc : Option (ℚ × ℚ)
  lengthSpec : Option String
  desc : Option String
deriving DecidableEq

/-- A registered overlay of a live map (an element of `map.overlays`),
restricted to the fields the watcher reads and writes. -/
structure MapOverlay where
  id : String
  color : String
  loc : ℚ × ℚ
  radius : ℚ
  unitName : String
  desc : Option String
  layer : String
deriving DecidableEq

/-- Parse one bound `mapoverlay` entry (main.ts 354-387): defaults are the
map's overlay color, location `[0, 0]` and length `"1 m"`; the entry is
skipped (with a notice) when the radius capture is absent or `NaN`;
otherwise it becomes an overlay tagged with the document's binding id. -/
def parseBoundOverlay (defaultColor layerId fileId : String)
    (e : FrontmatterOverlay) : Option MapOverlay :=
  match matchOverlayTag (e.lengthSpec.getD "1 m") with
  | none => none
  | some (num, unitTok) =>
    match jsNumber num with
    | none => none
    | some q =>
      some { id := fileId, color := e.color.getD defaultColor,
             loc := e.loc.getD (0, 0), radius := q,
             unitName := unitTok.getD "m", desc := e.desc, layer := layerId }

/-- The overlay-rebinding step of the metadata-change handler
(main.ts 344-393): every registered overlay tagged with the document's
binding id is removed, then the document's current `mapoverlay`
declarations are re-parsed and re-inserted. -/
def onBoundDocChange (overlays : List MapOverlay) (fileId : String)
    (defaultColor layerId : String)
    (mapoverlay : List FrontmatterOverlay) : List MapOverlay :=
  (overlays.filter (fun o => !(o.id == fileId))) ++
    mapoverlay.filterMap (parseBoundOverlay defaultColor layerId fileId)

/-! ### Multi-view synchronizer (main.ts 757-813) -/

/-- A marker as replicated between sibling views: id, icon type, location
and whether a tooltip is currently bound to its rendered instance. -/
structure SyncMarker where
  id : String
  mtype : String
  loc : ℚ × ℚ
  tooltipBound : Bool
deriving DecidableEq

/-- One registered view (an element of `this.maps`): its declared map id,
the identity of its content element, and its marker collection. -/
structure ViewInstance where
  mapId : String
  contentEl : Nat
  markers : List SyncMarker
deriving DecidableEq

/-- Modelled from the spec: `LeafletMap.addMarker` (src/leaflet, which is
not under src/) — on broadcast "each sibling creates a corresponding
marker with identical id/location/type"; modelled as appending the
received marker to the sibling's collection. -/
def addMarker (v : ViewInstance) (m : SyncMarker) : ViewInstance :=
  { v with markers := v.markers ++ [m] }

/-- The `marker-added` handler (main.ts 778-792): the new marker's tooltip
is closed and unbound, then the marker is added to every registered view
sharing the originator's map id except the originator itself (views are
distinguished by their content element). -/
def onMarkerAdded (reg : List ViewInstance) (origMapId : String)
    (origEl : Nat) (mk : SyncMarker) : List ViewInstance :=
  reg.map fun v =>
    if v.mapId == origMapId && !(v.contentEl == origEl) then
      addMarker v { mk with tooltipBound := false }
    else v

/-- In-place position update of the first marker matching the dragged
marker's id (`existingMarker.setLatLng(...); existingMarker.loc = ...`,
main.ts 802-810). -/
def setLocFirst (mk : SyncMarker) : List SyncMarker → List SyncMarker
  | [] => []
  | m :: rest =>
    if m.id == mk.id then { m with loc := mk.loc } :: rest
    else m :: setLocFirst mk rest

/-- The `marker-dragging` handler (main.ts 794-813): broadcast the live
position to each sibling view's marker with the matching id; a sibling
with no matching id is left unchanged (`if (!existingMarker) return;`). -/
def onMarkerDragging (reg : List ViewInstance) (origMapId : String)
    (origEl : Nat) (mk : SyncMarker) : List ViewInstance :=
  reg.map fun v =>
    if v.mapId == origMapId && !(v.contentEl == origEl) then
      match v.markers.find? (fun m => m.id == mk.id) with
      | none => v
      | some _ => { v with markers := setLocFirst mk v.markers }
    else v

/-! ### Coordinate fallback (`_getCoordinates`, main.ts 592-623) -/

/-- `s.split("%").shift()`: the prefix of `s` before the first `%`. -/
def splitPercentFirst (s : String) : String :=
  String.mk (s.data.takeWhile (fun c => !(c == '%')))

/-- Result of `_getCoordinates`: the computed center and whether the
non-fatal coordinate notice was shown. -/
structure CoordResult where
  coords : ℚ × ℚ
  warned : Bool
deriving DecidableEq

/-- The coordinate parsing and fallback tail of `_getCoordinates`
(main.ts 592-623), given the final latitude/longitude strings: each
component is `Number(str.split("%").shift())`; a `NaN` in either component
surfaces a non-fatal notice (main.ts 602-606); a component whose input is
falsy or whose parse is `NaN` falls back to 50 on a non-real (image) map
and to the global settings' configured latitude/longitude on a real map
(main.ts 608-622). -/
def getCoordinates (typeIsReal : Bool) (appLat appLong : ℚ)
    (latitude longitude : String) : CoordResult :=
  let c0 := jsNumber (splitPercentFirst latitude)
  let c1 := jsNumber (splitPercentFirst longitude)
  let lat0 := if latitude.isEmpty || c0.isNone
    then (if typeIsReal then appLat else 50) else c0.getD 0
  let long0 := if longitude.isEmpty || c1.isNone
    then (if typeIsReal then appLong else 50) else c1.getD 0
  { coords := (lat0, long0), warned := c0.isNone || c1.isNone }

/-! ### Example data for witnesses -/

/-- A sample persisted marker. -/
def exMarker : IMarkerData :=
  { mtype := "default", id := "abc123", loc := (1, 2), link := none,
    layer := "layer-1", command := false, zoom := 5 }

/-- A record with an id, no files, last accessed 8 days before
`1000000000000`. -/
def exRecOld : MapMarkerRecord :=
  { id := some "map-a", files := [], lastAccessed := some 999308800000,
    markers := [exMarker], overlays := [] }

/-- A record with an id, no files, last accessed 6 days before
`1000000000000`. -/
def exRecRecent : MapMarkerRecord :=
  { id := some "map-a", files := [], lastAccessed := some 999481600000,
    markers := [exMarker], overlays := [] }

/-- A record with an id and an attached file, last accessed long ago. -/
def exRecFiles : MapMarkerRecord :=
  { id := some "map-a", files := ["Note.md"], lastAccessed := some 0,
    markers := [exMarker], overlays := [] }

/-- A record whose id is absent, stale and unattached. -/
def exRecNoId : MapMarkerRecord :=
  { id := none, files := [], lastAccessed := some 0,
    markers := [exMarker], overlays := [] }

/-- A record whose id is the empty string, stale and unattached. -/
def exRecEmptyId : MapMarkerRecord :=
  { id := some "", files := [], lastAccessed := some 0,
    markers := [exMarker], overlays := [] }

/-- A live mutable marker on an active map. -/
def exLiveMarker : MarkerEntry :=
  { mutable := true, mtype := "default", id := "mk-1", loc := (3, 4),
    link := none, layer := "layer-1", command := none, zoom := none }

/-- A live mutable circle overlay on an active map. -/
def exLiveOverlay : OverlayEntry :=
  { mutable := true, isCircle := true, dataRadius := 10, latlng := (1, 2),
    color := "blue", layer := "layer-1", unitName := "m", desc := none }

/-- An active map with id `"map-a"` holding one marker. -/
def exMapA1 : MapEntry :=
  { id := "map-a", markers := [exLiveMarker], overlays := [] }

/-- A second active map with the same id `"map-a"`, holding one overlay. -/
def exMapA2 : MapEntry :=
  { id := "map-a", markers := [], overlays := [exLiveOverlay] }

/-- A `mapFiles` store attaching `"map-a"` to one document. -/
def exMapFiles : List MapFileEntry := [⟨"Note.md", ["map-a"]⟩]

/-- A well-formed raw overlay with radius spec `"5 m"`. -/
def exRaw5 : RawOverlay := ⟨"blue", (1, 1), "5 m", "five", some "ov-1"⟩

/-- A malformed raw overlay with radius spec `"abc"`. -/
def exRawBad : RawOverlay := ⟨"red", (2, 2), "abc", "bad", some "ov-2"⟩

/-- A well-formed raw overlay with radius spec `"50 m"`. -/
def exRaw50 : RawOverlay := ⟨"green", (3, 3), "50 m", "fifty", some "ov-3"⟩

/-- A parsed overlay in meters with the given radius and id. -/
def exParsed (r : ℚ) (id : String) : ParsedOverlay :=
  ⟨"blue", (0, 0), r, "m", "", id⟩

/-- A well-formed frontmatter overlay entry (radius `"5 m"`). -/
def exFmA : FrontmatterOverlay := ⟨some "red", some (1, 1), some "5 m", some "a"⟩

/-- A well-formed frontmatter overlay entry relying on the defaults. -/
def exFmB : FrontmatterOverlay := ⟨none, none, some "10 m", none⟩

/-- A well-formed frontmatter overlay entry (radius `"1 km"`). -/
def exFmC : FrontmatterOverlay := ⟨some "green", some (2, 2), some "1 km", some "c"⟩

/-- A registered overlay tagged with binding id `"doc-1"`. -/
def exBoundOverlay : MapOverlay := ⟨"doc-1", "blue", (0, 0), 7, "m", none, "layer-1"⟩

/-- A registered overlay tagged with an unrelated id. -/
def exOtherOverlay : MapOverlay := ⟨"other", "blue", (5, 5), 3, "m", none, "layer-1"⟩

end OLeaflet

namespace OLeaflet

/-! ### Claims about the persistence merge & GC pass -/

/-- Claim C2: on a save cycle, a durable record with a (truthy) id, empty
`files`, and `lastAccessed` more than 7 days (6.048e8 ms) in the past is
dropped by the GC filter; with empty `files` but `lastAccessed` within the
window (e.g. 6 days ago) it is retained; with non-empty `files` it is
retained regardless of age.  The record is assumed to carry marker or
overlay data, the invariant every record surviving a previous save cycle
satisfies (main.ts 688-690). -/
theorem saveCycle_gc_boundary (now t : Int) (records : List MapMarkerRecord)
    (r : MapMarkerRecord) (hmem : r ∈ records) (hid : idTruthy r.id = true)
    (hdata : keepWithData r = true) (ht : r.lastAccessed = some t) :
    (r.files = [] → 604800000 < now - t → r ∉ pruneRecords now records) ∧
    (r.files = [] → now - t ≤ 604800000 → r ∈ pruneRecords now records) ∧
    (r.files ≠ [] → r ∈ pruneRecords now records) := by
  refine ⟨fun hf hold hmem' => ?_, fun hf hrecent => ?_, fun hf => ?_⟩
  · rw [pruneRecords] at hmem'
    have h2 := (List.mem_filter.mp hmem').2
    simp [gcKeep, hid, hf, ht] at h2
    omega
  · rw [pruneRecords]
    refine List.mem_filter.mpr ⟨List.mem_filter.mpr ⟨hmem, hdata⟩, ?_⟩
    simp [gcKeep, ht]
    omega
  · rw [pruneRecords]
    refine List.mem_filter.mpr ⟨List.mem_filter.mpr ⟨hmem, hdata⟩, ?_⟩
    have : r.files.isEmpty = false := by
      cases hfl : r.files with
      | nil => exact absurd hfl hf
      | cons a l => simp
    simp [gcKeep, this]

/-- Witness for C2 at concrete records and `now = 1000000000000`. -/
theorem saveCycle_gc_boundary_wit :
    exRecOld ∉ pruneRecords 1000000000000 [exRecOld] ∧
    exRecRecent ∈ pruneRecords 1000000000000 [exRecRecent] ∧
    exRecFiles ∈ pruneRecords 1000000000000 [exRecFiles] :=
  ⟨(saveCycle_gc_boundary 1000000000000 999308800000 [exRecOld] exRecOld
      (by decide) (by decide) (by decide) (by decide)).1 rfl (by decide),
   (saveCycle_gc_boundary 1000000000000 999481600000 [exRecRecent] exRecRecent
      (by decide) (by decide) (by decide) (by decide)).2.1 rfl (by decide),
   (saveCycle_gc_boundary 1000000000000 0 [exRecFiles] exRecFiles
      (by decide) (by decide) (by decide) (by decide)).2.2 (by decide)⟩

/-- Claim C10: the GC filter never drops a record whose id is falsy
(absent or empty): `!id ||` short-circuits the whole retention test, so
such a record is retained regardless of its `files` and `lastAccessed`,
provided it survived the non-empty markers/overlays filter. -/
theorem gc_keeps_falsy_id (now : Int) (records : List MapMarkerRecord)
    (r : MapMarkerRecord) (hmem : r ∈ records) (hid : idTruthy r.id = false)
    (hdata : keepWithData r = true) : r ∈ pruneRecords now records := by
  rw [pruneRecords]
  exact List.mem_filter.mpr ⟨List.mem_filter.mpr ⟨hmem, hdata⟩,
    by simp [gcKeep, hid]⟩

/-- Witness for C10: a stale unattached record with absent id and one with
empty-string id both survive the save-cycle pruning. -/
theorem gc_keeps_falsy_id_wit :
    exRecNoId ∈ pruneRecords 1000000000000 [exRecNoId, exRecEmptyId] ∧
    exRecEmptyId ∈ pruneRecords 1000000000000 [exRecNoId, exRecEmptyId] :=
  ⟨gc_keeps_falsy_id _ _ _ (by decide) (by decide) (by decide),
   gc_keeps_falsy_id _ _ _ (by decide) (by decide) (by decide)⟩

/-! ### Claim C8: remove-then-append dedup in `saveSettings` -/

/-- Helper: one merge step leaves the records of an unrelated id untouched. -/
theorem filter_mergeStep_ne (now : Int) (mf : List MapFileEntry)
    (recs : List MapMarkerRecord) (m : MapEntry) (i : String) (h : m.id ≠ i) :
    (mergeStep now mf recs m).filter (fun r => r.id == some i) =
      recs.filter (fun r => r.id == some i) := by
  rw [mergeStep, List.filter_append, List.filter_filter]
  have h1 : recs.filter (fun r => (r.id == some i) && !(r.id == some m.id)) =
      recs.filter (fun r => r.id == some i) := by
    apply List.filter_congr
    intro r _
    cases hp : (r.id == some i) with
    | false => simp
    | true =>
      have : r.id = some i := by simpa using hp
      simp [this, h, Ne.symm h]
  have h2 : (List.filter (fun r => r.id == some i) [buildRecord now mf m]) = [] := by
    simp [buildRecord, h]
  rw [h1, h2, List.append_nil]

/-- Helper: one merge step leaves exactly the freshly built record for the
stepped map's own id. -/
theorem filter_mergeStep_eq (now : Int) (mf : List MapFileEntry)
    (recs : List MapMarkerRecord) (m : MapEntry) :
    (mergeStep now mf recs m).filter (fun r => r.id == some m.id) =
      [buildRecord now mf m] := by
  rw [mergeStep, List.filter_append, List.filter_filter]
  have h1 : recs.filter (fun r => (r.id == some m.id) && !(r.id == some m.id)) = [] := by
    apply List.filter_eq_nil_iff.mpr
    intro r _
    cases hp : (r.id == some m.id) <;> simp [hp]
  have h2 : (List.filter (fun r => r.id == some m.id) [buildRecord now mf m]) =
      [buildRecord now mf m] := by
    simp [buildRecord]
  rw [h1, h2, List.nil_append]

/-- Helper: after folding the merge step over all active maps, the records
carrying id `i` are exactly the fresh record of the last active map with id
`i`, or the pre-existing ones when no active map has id `i`. -/
theorem filter_foldl_mergeStep (now : Int) (mf : List MapFileEntry) (i : String) :
    ∀ (maps : List MapEntry) (recs : List MapMarkerRecord),
      (maps.foldl (mergeStep now mf) recs).filter (fun r => r.id == some i) =
        match maps.reverse.find? (fun m => m.id == i) with
        | none => recs.filter (fun r => r.id == some i)
        | some m => [buildRecord now mf m]
  | [], recs => by simp
  | m :: rest, recs => by
    rw [List.foldl_cons,
      filter_foldl_mergeStep now mf i rest (mergeStep now mf recs m),
      List.reverse_cons, List.find?_append]
    cases hfind : rest.reverse.find? (fun x => x.id == i) with
    | some m'' => simp [hfind]
    | none =>
      by_cases hm : m.id = i
      · subst hm
        simp [hfind, List.find?, filter_mergeStep_eq now mf recs m]
      · have hb : (m.id == i) = false := by simp [hm]
        have hfm : (List.find? (fun x => x.id == i) [m]) = none := by
          simp [List.find?, hb]
        simp [hfind, hfm, filter_mergeStep_ne now mf recs m i hm]

/-- Claim C8: after a save cycle, the durable store holds at most one
record per active map id, and the surviving record for that id (if any) is
exactly the record freshly built from the last active map with that id —
remove-then-append, last writer wins entirely. -/
theorem saveSettings_record_unique (now : Int) (mf : List MapFileEntry)
    (maps : List MapEntry) (records : List MapMarkerRecord) (m : MapEntry)
    (hm : m ∈ maps) :
    (saveSettingsRecords now mf maps records).countP
        (fun r => r.id == some m.id) ≤ 1 ∧
    ∀ r ∈ saveSettingsRecords now mf maps records, r.id = some m.id →
      ∃ m', maps.reverse.find? (fun x => x.id == m.id) = some m' ∧
        r = buildRecord now mf m' := by
  obtain ⟨m'', hfind⟩ : ∃ m'',
      maps.reverse.find? (fun x => x.id == m.id) = some m'' := by
    have hs : (maps.reverse.find? (fun x => x.id == m.id)).isSome := by
      rw [List.find?_isSome]
      exact ⟨m, List.mem_reverse.mpr hm, by simp⟩
    exact Option.isSome_iff_exists.mp hs
  have hkey := filter_foldl_mergeStep now mf m.id maps records
  rw [hfind] at hkey
  constructor
  · rw [saveSettingsRecords, pruneRecords, List.countP_filter, List.countP_filter]
    calc (maps.foldl (mergeStep now mf) records).countP
          (fun a => ((a.id == some m.id) && gcKeep now a) && keepWithData a)
        ≤ (maps.foldl (mergeStep now mf) records).countP
          (fun r => r.id == some m.id) := by
          apply List.countP_mono_left
          intro x _ hx
          exact (Bool.and_elim_left (Bool.and_elim_left hx))
      _ = 1 := by rw [List.countP_eq_length_filter, hkey]; rfl
  · intro r hr hrid
    refine ⟨m'', hfind, ?_⟩
    have hr' : r ∈ maps.foldl (mergeStep now mf) records := by
      rw [saveSettingsRecords, pruneRecords] at hr
      exact (List.mem_filter.mp (List.mem_filter.mp hr).1).1
    have hrf : r ∈ (maps.foldl (mergeStep now mf) records).filter
        (fun r => r.id == some m.id) :=
      List.mem_filter.mpr ⟨hr', by simp [hrid]⟩
    rw [hkey] at hrf
    simpa using hrf

/-- Witness for C8: two active maps sharing id `"map-a"`, one stale record;
after the save cycle the store holds at most one `"map-a"` record and it is
the one built from the second (last) active map. -/
theorem saveSettings_record_unique_wit :
    (saveSettingsRecords 1000000000000 exMapFiles [exMapA1, exMapA2]
        [exRecOld]).countP (fun r => r.id == some exMapA1.id) ≤ 1 ∧
    ∀ r ∈ saveSettingsRecords 1000000000000 exMapFiles [exMapA1, exMapA2]
        [exRecOld],
      r.id = some exMapA1.id →
      ∃ m', ([exMapA1, exMapA2].reverse.find?
          (fun x => x.id == exMapA1.id)) = some m' ∧
        r = buildRecord 1000000000000 exMapFiles m' :=
  saveSettings_record_unique 1000000000000 exMapFiles [exMapA1, exMapA2]
    [exRecOld] exMapA1 (by with_unfolding_all decide)

/-! ### Claim C3: descending overlay ordering -/

/-- Claim C3: the sort at main.ts 260-268 orders every overlay array by
radius converted to meters, descending, regardless of declaration order:
the result is a permutation of the input, pairwise descending in the
converted-radius key, and on converted radii [5m, 50m, 1m] the insertion
order is [50m, 5m, 1m]. -/
theorem overlays_sorted_descending (l : List ParsedOverlay) :
    (sortOverlays l).Perm l ∧
    (sortOverlays l).Pairwise (fun a b => overlayKey b ≤ overlayKey a) ∧
    sortOverlays [exParsed 5 "a", exParsed 50 "b", exParsed 1 "c"] =
      [exParsed 50 "b", exParsed 5 "a", exParsed 1 "c"] := by
  refine ⟨List.perm_insertionSort overlayGE l, ?_, by with_unfolding_all decide⟩
  haveI : IsTotal ParsedOverlay overlayGE :=
    ⟨fun a b => le_total (overlayKey b) (overlayKey a)⟩
  haveI : IsTrans ParsedOverlay overlayGE :=
    ⟨fun _ _ _ hab hbc => le_trans hbc hab⟩
  exact List.sorted_insertionSort overlayGE l

/-! ### Claim C7: a missing map id is fatal for the render -/

/-- Claim C7: a map block whose parameters contain no (truthy) id throws
`"ID required"` (main.ts 149-157); the top-level catch notifies the user
and replaces the map's rendered region with the error message, so no map
is displayed. -/
theorem missing_id_fatal (p : PostParams) (h : idTruthy p.id = false) :
    (postprocessor p).outcome = .errorRegion "ID required" ∧
    (postprocessor p).notices = [idNotice1, idNotice2, loadErrorNotice] := by
  simp [postprocessor, h]

/-- Witness for C7 at a concrete block with an absent id. -/
theorem missing_id_fatal_wit :
    (postprocessor ⟨none, [exRaw5]⟩).outcome = .errorRegion "ID required" ∧
    (postprocessor ⟨none, [exRaw5]⟩).notices =
      [idNotice1, idNotice2, loadErrorNotice] :=
  missing_id_fatal ⟨none, [exRaw5]⟩ (by decide)

/-! ### Claim C1: effect of a malformed overlay radius -/

/-- Claim C1 is false on the code: with 3 declared overlays of which the
second has radius spec `"abc"`, the overlay-array construction throws, the
whole map render aborts into the top-level catch, and 0 (not 2) overlays
render — the rendered region is the error message. -/
theorem malformed_overlay_aborts_map_cex :
    processOverlays [exRaw5, exRawBad, exRaw50] =
      .error overlayFormatErrorMsg ∧
    (postprocessor ⟨some "map-a", [exRaw5, exRawBad, exRaw50]⟩).outcome =
      .errorRegion overlayFormatErrorMsg ∧
    renderedOverlayCount
      (postprocessor ⟨some "map-a", [exRaw5, exRawBad, exRaw50]⟩).outcome
      = 0 := by
  with_unfolding_all decide

/-- Claim C1 (amended): a malformed radius spec in a map's overlay list
produces the overlay-format error for the whole render: the thrown error
reaches the catch at main.ts 529-533, the user is notified, and the map's
rendered region is replaced by the error message — none of the map's
overlays render.  (Only the binding-watcher path at main.ts 368-373 skips
an individual malformed overlay.) -/
theorem malformed_overlay_aborts_map (p : PostParams) (e : String)
    (hid : idTruthy p.id = true)
    (h : processOverlays p.overlay = .error e) :
    (postprocessor p).outcome = .errorRegion e ∧
    (postprocessor p).notices = [loadErrorNotice] := by
  simp [postprocessor, hid, h]

/-- Witness for the amended C1 at the concrete 3-overlay block. -/
theorem malformed_overlay_aborts_map_wit :
    (postprocessor ⟨some "map-a", [exRaw5, exRawBad, exRaw50]⟩).outcome =
      .errorRegion overlayFormatErrorMsg ∧
    (postprocessor ⟨some "map-a", [exRaw5, exRawBad, exRaw50]⟩).notices =
      [loadErrorNotice] :=
  malformed_overlay_aborts_map ⟨some "map-a", [exRaw5, exRawBad, exRaw50]⟩
    overlayFormatErrorMsg (by decide) (by with_unfolding_all decide)

/-! ### Claim C4: full replacement of a document's bound overlays -/

/-- Helper: a successfully parsed bound overlay carries the binding id. -/
theorem parseBoundOverlay_id (c lay fid : String) (e : FrontmatterOverlay)
    (o : MapOverlay) (h : parseBoundOverlay c lay fid e = some o) :
    o.id = fid := by
  unfold parseBoundOverlay at h
  split at h
  · exact absurd h (by simp)
  · split at h
    · exact absurd h (by simp)
    · simp only [Option.some.injEq] at h
      subst h
      rfl

/-- Helper: `filterMap` keeps every element whose image is defined. -/
theorem length_filterMap_isSome {α β : Type} (f : α → Option β) :
    ∀ l : List α, (∀ a ∈ l, (f a).isSome) → (l.filterMap f).length = l.length
  | [], _ => rfl
  | a :: l, h => by
    cases hfa : f a with
    | none => simpa [hfa] using h a (List.mem_cons_self a l)
    | some b =>
      simp [List.filterMap_cons, hfa,
        length_filterMap_isSome f l (fun x hx => h x (List.mem_cons_of_mem a hx))]

/-- Helper: one change notification leaves the overlays with other binding
ids exactly as they were. -/
theorem onBoundDocChange_filter_ne (ovs : List MapOverlay)
    (fid c lay : String) (es : List FrontmatterOverlay) :
    (onBoundDocChange ovs fid c lay es).filter (fun o => !(o.id == fid)) =
      ovs.filter (fun o => !(o.id == fid)) := by
  rw [onBoundDocChange, List.filter_append, List.filter_filter]
  have h1 : (List.filter (fun o => !(o.id == fid))
      (es.filterMap (parseBoundOverlay c lay fid))) = [] := by
    apply List.filter_eq_nil_iff.mpr
    intro o ho
    obtain ⟨e, _, he⟩ := List.mem_filterMap.mp ho
    simp [parseBoundOverlay_id c lay fid e o he]
  have h2 : (ovs.filter fun o => !(o.id == fid) && !(o.id == fid)) =
      ovs.filter (fun o => !(o.id == fid)) :=
    List.filter_congr (fun o _ => Bool.and_self _)
  rw [h1, h2, List.append_nil]

/-- Helper: after one change notification the overlays carrying the
binding id are exactly the parsed current declarations. -/
theorem onBoundDocChange_filter_eq (ovs : List MapOverlay)
    (fid c lay : String) (es : List FrontmatterOverlay) :
    (onBoundDocChange ovs fid c lay es).filter (fun o => o.id == fid) =
      es.filterMap (parseBoundOverlay c lay fid) := by
  rw [onBoundDocChange, List.filter_append, List.filter_filter]
  have h1 : (ovs.filter fun o => (o.id == fid) && !(o.id == fid)) = [] := by
    apply List.filter_eq_nil_iff.mpr
    intro o _
    cases hp : (o.id == fid) <;> simp [hp]
  have h2 : (List.filter (fun o => o.id == fid)
      (es.filterMap (parseBoundOverlay c lay fid))) =
      es.filterMap (parseBoundOverlay c lay fid) := by
    apply List.filter_eq_self.mpr
    intro o ho
    obtain ⟨e, _, he⟩ := List.mem_filterMap.mp ho
    simp [parseBoundOverlay_id c lay fid e o he]
  rw [h1, h2, List.nil_append]

/-- Claim C4: on each change notification of a bound document the overlay
set tagged with its binding id is fully replaced: after two successive
notifications the tagged overlays are exactly the (well-formed) current
declarations — in particular, going from 2 entries to 1 entry leaves
exactly 1 tagged overlay — while overlays with other binding ids are
untouched. -/
theorem binding_replace_semantics (ovs : List MapOverlay)
    (fileId defaultColor layerId : String)
    (e1 e2 : List FrontmatterOverlay)
    (h2 : ∀ e ∈ e2,
      (parseBoundOverlay defaultColor layerId fileId e).isSome) :
    ((onBoundDocChange (onBoundDocChange ovs fileId defaultColor layerId e1)
        fileId defaultColor layerId e2).filter
        (fun o => o.id == fileId)).length = e2.length ∧
    (onBoundDocChange (onBoundDocChange ovs fileId defaultColor layerId e1)
        fileId defaultColor layerId e2).filter (fun o => !(o.id == fileId)) =
      ovs.filter (fun o => !(o.id == fileId)) := by
  constructor
  · rw [onBoundDocChange_filter_eq]
    exact length_filterMap_isSome _ e2 h2
  · rw [onBoundDocChange_filter_ne, onBoundDocChange_filter_ne]

/-- Witness for C4: a bound document's `mapoverlay` goes from 2 entries to
1 entry; afterwards exactly 1 overlay tagged `"doc-1"` exists and the
unrelated overlay is untouched. -/
theorem binding_replace_semantics_wit :
    ((onBoundDocChange (onBoundDocChange [exBoundOverlay, exOtherOverlay]
        "doc-1" "blue" "layer-1" [exFmA, exFmB]) "doc-1" "blue" "layer-1"
        [exFmC]).filter (fun o => o.id == "doc-1")).length = 1 ∧
    (onBoundDocChange (onBoundDocChange [exBoundOverlay, exOtherOverlay]
        "doc-1" "blue" "layer-1" [exFmA, exFmB]) "doc-1" "blue" "layer-1"
        [exFmC]).filter (fun o => !(o.id == "doc-1")) =
      [exBoundOverlay, exOtherOverlay].filter (fun o => !(o.id == "doc-1")) :=
  binding_replace_semantics [exBoundOverlay, exOtherOverlay] "doc-1" "blue"
    "layer-1" [exFmA, exFmB] [exFmC] (by with_unfolding_all decide)

/-! ### Claim C5: marker-added broadcast to sibling views -/

/-- Claim C5: on a marker-added mutation, every registered view sharing
the originator's map id except the originator itself (distinguished by
content element) receives a marker with identical id, type and location
and with no tooltip bound; every other registered view is unchanged. -/
theorem marker_added_broadcast (reg : List ViewInstance) (origMapId : String)
    (origEl : Nat) (mk : SyncMarker) :
    List.Forall₂ (fun v v' =>
      (v.mapId = origMapId ∧ v.contentEl ≠ origEl →
        ∃ m ∈ v'.markers, m.id = mk.id ∧ m.mtype = mk.mtype ∧
          m.loc = mk.loc ∧ m.tooltipBound = false) ∧
      (¬(v.mapId = origMapId ∧ v.contentEl ≠ origEl) → v' = v))
      reg (onMarkerAdded reg origMapId origEl mk) := by
  rw [onMarkerAdded, List.forall₂_map_right_iff]
  refine List.forall₂_same.mpr (fun v _ => ?_)
  by_cases hs : v.mapId = origMapId ∧ v.contentEl ≠ origEl
  · have hb : (v.mapId == origMapId && !(v.contentEl == origEl)) = true := by
      simp [hs.1, hs.2]
    refine ⟨fun _ => ?_, fun hns => absurd hs hns⟩
    refine ⟨{ mk with tooltipBound := false }, ?_, rfl, rfl, rfl, rfl⟩
    simp [hb, addMarker]
  · have hb : (v.mapId == origMapId && !(v.contentEl == origEl)) = false := by
      simp only [not_and, ne_eq, not_not] at hs
      by_cases h1 : v.mapId = origMapId
      · simp [h1, hs h1]
      · simp [h1]
    exact ⟨fun h => absurd h hs, fun _ => by simp [hb]⟩

/-! ### Claim C6: marker-dragging broadcast drops missing siblings -/

/-- Helper: updating the first id-matching marker yields a marker with the
dragged marker's id and location. -/
theorem setLocFirst_mem (mk : SyncMarker) :
    ∀ l : List SyncMarker, (∃ m ∈ l, m.id = mk.id) →
      ∃ m' ∈ setLocFirst mk l, m'.id = mk.id ∧ m'.loc = mk.loc
  | [], h => absurd h (by simp)
  | m :: rest, h => by
    by_cases hm : m.id = mk.id
    · have hb : (m.id == mk.id) = true := by simp [hm]
      exact ⟨{ m with loc := mk.loc }, by simp [setLocFirst, hb], by simp [hm], rfl⟩
    · have hb : (m.id == mk.id) = false := by simp [hm]
      obtain ⟨x, hx, hxid⟩ := h
      rcases List.mem_cons.mp hx with rfl | hx'
      · exact absurd hxid hm
      · obtain ⟨m', hm', hp⟩ := setLocFirst_mem mk rest ⟨x, hx', hxid⟩
        exact ⟨m', by simp [setLocFirst, hb, hm'], hp⟩

/-- Claim C6: on a marker-dragging broadcast, a sibling view (same map id,
different content element) with no marker matching the dragged id is left
exactly unchanged — the update is silently dropped, not queued or raised —
while a sibling holding a matching id ends up with a marker at the dragged
location; non-sibling views are untouched. -/
theorem marker_dragging_broadcast (reg : List ViewInstance)
    (origMapId : String) (origEl : Nat) (mk : SyncMarker) :
    List.Forall₂ (fun v v' =>
      (v.mapId = origMapId ∧ v.contentEl ≠ origEl →
        ((∀ m ∈ v.markers, m.id ≠ mk.id) → v' = v) ∧
        ((∃ m ∈ v.markers, m.id = mk.id) →
          ∃ m' ∈ v'.markers, m'.id = mk.id ∧ m'.loc = mk.loc)) ∧
      (¬(v.mapId = origMapId ∧ v.contentEl ≠ origEl) → v' = v))
      reg (onMarkerDragging reg origMapId origEl mk) := by
  rw [onMarkerDragging, List.forall₂_map_right_iff]
  refine List.forall₂_same.mpr (fun v _ => ?_)
  by_cases hs : v.mapId = origMapId ∧ v.contentEl ≠ origEl
  · have hb : (v.mapId == origMapId && !(v.contentEl == origEl)) = true := by
      simp [hs.1, hs.2]
    refine ⟨fun _ => ⟨fun hnone => ?_, fun hex => ?_⟩, fun hns => absurd hs hns⟩
    · have hf : v.markers.find? (fun m => m.id == mk.id) = none := by
        apply List.find?_eq_none.mpr
        intro x hx
        simpa using hnone x hx
      simp [hb, hf]
    · obtain ⟨x, hx, hxid⟩ := hex
      have hfs : (v.markers.find? (fun m => m.id == mk.id)).isSome := by
        rw [List.find?_isSome]
        exact ⟨x, hx, by simp [hxid]⟩
      obtain ⟨y, hy⟩ := Option.isSome_iff_exists.mp hfs
      have hmem := setLocFirst_mem mk v.markers ⟨x, hx, hxid⟩
      simpa [hb, hy] using hmem
  · have hb : (v.mapId == origMapId && !(v.contentEl == origEl)) = false := by
      simp only [not_and, ne_eq, not_not] at hs
      by_cases h1 : v.mapId = origMapId
      · simp [h1, hs h1]
      · simp [h1]
    exact ⟨fun h => absurd h hs, fun _ => by simp [hb]⟩

/-! ### Claim C9: coordinate parse failure falls back to defaults -/

/-- Claim C9: a latitude/longitude component whose string fails to parse
as a number (`NaN`) falls back to 50 on an image (non-real) map and to the
global settings' configured latitude/longitude on a real map — the
image-plane center (50, 50), or the settings pair, when both fail — and
the non-fatal coordinate notice is surfaced. -/
theorem coordinate_fallback (appLat appLong : ℚ) (lat long : String)
    (hlat : jsNumber (splitPercentFirst lat) = none) :
    (getCoordinates false appLat appLong lat long).coords.1 = 50 ∧
    (getCoordinates true appLat appLong lat long).coords.1 = appLat ∧
    (getCoordinates false appLat appLong lat long).warned = true ∧
    (getCoordinates true appLat appLong lat long).warned = true ∧
    (jsNumber (splitPercentFirst long) = none →
      (getCoordinates false appLat appLong lat long).coords = (50, 50) ∧
      (getCoordinates true appLat appLong lat long).coords =
        (appLat, appLong)) := by
  refine ⟨?_, ?_, ?_, ?_, fun hlong => ⟨?_, ?_⟩⟩ <;>
    simp [getCoordinates, hlat, *]

/-- Witness for C9: both components unparsable on concrete inputs. -/
theorem coordinate_fallback_wit :
    (getCoordinates false 40 (-70) "abc" "xyz").coords.1 = 50 ∧
    (getCoordinates true 40 (-70) "abc" "xyz").coords.1 = 40 ∧
    (getCoordinates false 40 (-70) "abc" "xyz").warned = true ∧
    (getCoordinates true 40 (-70) "abc" "xyz").warned = true ∧
    (jsNumber (splitPercentFirst "xyz") = none →
      (getCoordinates false 40 (-70) "abc" "xyz").coords = (50, 50) ∧
      (getCoordinates true 40 (-70) "abc" "xyz").coords = (40, -70)) :=
  coordinate_fallback 40 (-70) "abc" "xyz" (by with_unfolding_all decide)

end OLeaflet
